import Mathlib

/-!
Verification development for the ariadne quantum-circuit routing library.

The central artifact is a shallow embedding of `src/ariadne/router.py`:
the `simulate` entry point and its core `_execute_simulation` helper,
which select a backend, pass through resource admission control, execute
the circuit on the chosen backend and fall back to the guaranteed
Qiskit backend on failure.

The backend execution engines themselves are external collaborators
(opaque black boxes per the specification); they are represented by an
oracle `Env.engine` giving, for the call at hand, the outcome each
engine would produce.  Modules of the repository that are referenced by
`router.py` but whose source is not part of the snapshot
(`ariadne/core`, `ariadne/types`, `ariadne/route`) are modelled from the
specification; each such definition is marked `Modelled from the spec:`.

State threaded through the embedding records the aggregate outstanding
resource reservation together with instrumentation counters (engine
invocations, router selections, feasibility checks, reservation
attempts) used to express claims such as "no backend execution is
attempted" or "the scored router is never invoked".
-/

namespace Ariadne

/-- Modelled from the spec and `ariadne/types.py` (not in the snapshot):
the closed enumeration of backend kinds.  The seven kinds with dedicated
handlers in `router.py` are listed, plus `azure_quantum`, a kind that is
referenced by the test-suite but has no dedicated handler in
`_execute_simulation`. -/
inductive BackendType
  | stim
  | qiskit
  | tensor_network
  | jax_metal
  | ddsim
  | mps
  | cuda
  | azure_quantum
  deriving DecidableEq, Repr

/-- The string value of a backend kind (the `.value` attribute of the enum). -/
def BackendType.value : BackendType → String
  | .stim => "stim"
  | .qiskit => "qiskit"
  | .tensor_network => "tensor_network"
  | .jax_metal => "jax_metal"
  | .ddsim => "ddsim"
  | .mps => "mps"
  | .cuda => "cuda"
  | .azure_quantum => "azure_quantum"

/-- Parsing a backend-override string, as `BackendType(backend)` does in
`simulate`: `none` when the string names no known backend kind (the
Python enum constructor raises `ValueError`). -/
def BackendType.ofString : String → Option BackendType
  | "stim" => some .stim
  | "qiskit" => some .qiskit
  | "tensor_network" => some .tensor_network
  | "jax_metal" => some .jax_metal
  | "ddsim" => some .ddsim
  | "mps" => some .mps
  | "cuda" => some .cuda
  | "azure_quantum" => some .azure_quantum
  | _ => none

/-- One operation of a circuit: a gate name and its operand qubits. -/
structure Operation where
  name : String
  qubits : List Nat
  deriving DecidableEq, Repr

/-- A circuit descriptor: qubit count, classical-bit count and the
ordered operation list.  This is the part of `qiskit.QuantumCircuit`
that `router.py` and the feature extractor consume. -/
structure Circuit where
  num_qubits : Nat
  num_clbits : Nat
  ops : List Operation
  deriving DecidableEq, Repr

/-- Outcome counts: a mapping from output bitstring to occurrence count
(`dict[str, int]` in the source). -/
abbrev Counts := List (String × Int)

/-- The outcome an opaque execution engine produces for one call:
success with counts, a missing-dependency failure (`ImportError` in the
source, caught before the engine runs), or a runtime failure raised
while the engine runs. -/
inductive EngineOutcome
  | ok (counts : Counts)
  | importFail (msg : String)
  | runFail (msg : String)
  deriving DecidableEq, Repr

/-- The typed error taxonomy of `ariadne/core` (not in the snapshot).
Modelled from the spec: `ValueError`, `BackendUnavailableError`,
`SimulationError`, `CircuitTooLargeError` and `ResourceExhaustionError`,
with the payload fields `router.py` passes to their constructors (the
depth payload of `CircuitTooLargeError` is omitted; no claim observes it). -/
inductive AriadneError
  | valueError (msg : String)
  | backendUnavailable (backend : String) (msg : String)
  | simulationError (msg : String) (backend : Option String)
  | circuitTooLarge (qubits : Nat) (backend : String)
  | resourceExhaustion (resource : String) (required : Nat) (available : Nat)
  deriving DecidableEq, Repr

/-- Modelled from the spec: the message rendering (`str(exc)`) of each
error class of the missing `ariadne/core` module; only its occurrence
inside the fallback and aggregate messages of `router.py` is observed. -/
def AriadneError.message : AriadneError → String
  | .valueError m => m
  | .backendUnavailable b m => "Backend " ++ b ++ " unavailable: " ++ m
  | .simulationError m _ => m
  | .circuitTooLarge n b =>
      "Circuit with " ++ toString n ++ " qubits is too large for backend " ++ b
  | .resourceExhaustion r req avail =>
      "Resource " ++ r ++ " exhausted: required " ++ toString req
        ++ ", available " ++ toString avail

/-- The per-call environment: the opaque collaborators `router.py`
consumes.  `engine` gives the outcome each execution engine produces for
the given circuit and shot count; `cudaAvailable` and `metalAvailable`
are the cached availability probes; `maxQubits`, `estimate`, `ceiling`
and `availableB` are the capability and resource data of the modelled
registry and admission controller. -/
structure Env where
  engine : BackendType → Circuit → Int → EngineOutcome
  cudaAvailable : Bool
  metalAvailable : Bool
  maxQubits : BackendType → Nat
  estimate : BackendType → Circuit → Nat
  ceiling : Nat
  availableB : BackendType → Bool

/-- Modelled from the spec: `check_circuit_feasibility(circuit, backend)`
from the missing `ariadne/core` module; per the spec the capacity check
compares the qubit count of the circuit against the max_qubits of the
backend. -/
def feasible (env : Env) (b : BackendType) (c : Circuit) : Bool :=
  c.num_qubits ≤ env.maxQubits b

/-- A routing decision, with the fields `router.py` constructs at the
forced-backend path (`ariadne/types.py` is not in the snapshot). -/
structure RoutingDecision where
  circuit_entropy : ℚ
  recommended_backend : BackendType
  confidence_score : ℚ
  expected_speedup : ℚ
  channel_capacity_match : ℚ
  alternatives : List BackendType
  deriving DecidableEq, Repr

/-- The forced routing decision `simulate` constructs for an explicit
backend override (router.py lines 392-399). -/
def forcedDecision (bt : BackendType) : RoutingDecision :=
  { circuit_entropy := 0
    recommended_backend := bt
    confidence_score := 1
    expected_speedup := 1
    channel_capacity_match := 1
    alternatives := [] }

/-- A fixed preference order over backend kinds, used by the modelled
scored router for its deterministic tie-break. -/
def backendOrder : List BackendType :=
  [.stim, .mps, .tensor_network, .ddsim, .jax_metal, .cuda, .azure_quantum, .qiskit]

/-- Modelled from the spec: `EnhancedQuantumRouter.select_optimal_backend`
from the missing `ariadne/route/enhanced_router.py`.  Candidates failing
the availability gate (unavailable or capacity-incompatible) are
disqualified; when no backend qualifies the router returns the
guaranteed-general Qiskit backend with confidence 0, otherwise the best
candidate in the fixed preference order with its remaining alternatives. -/
def selectOptimalBackend (env : Env) (c : Circuit) : RoutingDecision :=
  match backendOrder.filter (fun b => env.availableB b && feasible env b c) with
  | [] =>
      { circuit_entropy := 0
        recommended_backend := .qiskit
        confidence_score := 0
        expected_speedup := 1
        channel_capacity_match := 0
        alternatives := [] }
  | b :: rest =>
      { circuit_entropy := 0
        recommended_backend := b
        confidence_score := 1
        expected_speedup := 1
        channel_capacity_match := 1
        alternatives := rest }

/-- The result of a simulation, with the fields of the `SimulationResult`
type of `ariadne/types.py` that `router.py` populates.
Wall-clock time is outside the embedding and recorded as 0; the
`metadata` dictionary is represented by its single `shots` entry. -/
structure SimulationResult where
  counts : Counts
  backend_used : BackendType
  execution_time : ℚ
  routing_decision : Option RoutingDecision
  shots : Int
  fallback_reason : Option String
  warnings : Option (List String)
  deriving DecidableEq, Repr

/-- The state threaded through a call: the aggregate outstanding
resource reservation of the modelled admission controller, the ordered
trace of engine invocations, and counters of router selections,
feasibility checks and reservation attempts. -/
structure SimState where
  outstanding : Nat
  invocations : List BackendType
  routerCalls : Nat
  feasibilityChecks : Nat
  reserveCalls : Nat
  deriving DecidableEq, Repr

/-- A fresh state: nothing reserved, nothing invoked. -/
def SimState.init : SimState :=
  { outstanding := 0, invocations := [], routerCalls := 0
    feasibilityChecks := 0, reserveCalls := 0 }

/- Backend helper translations.  Each helper returns its outcome
together with the list of engine invocations it performed (an engine is
not invoked when its dependency import fails).  This mirrors the
`_simulate_*` functions of `router.py`. -/

/-- Translation of `_simulate_stim` (router.py lines 63-77): an import
failure of the converters raises `BackendUnavailableError`, any failure
while the engine runs raises `SimulationError`. -/
def simulateStim (env : Env) (c : Circuit) (shots : Int) :
    Except AriadneError Counts × List BackendType :=
  match env.engine .stim c shots with
  | .importFail _ =>
      (.error (.backendUnavailable "stim" "Stim is not installed"), [])
  | .runFail m =>
      (.error (.simulationError ("Stim simulation failed: " ++ m) (some "stim")), [.stim])
  | .ok cnts => (.ok cnts, [.stim])

/-- Translation of `_simulate_qiskit` (router.py lines 80-96). -/
def simulateQiskit (env : Env) (c : Circuit) (shots : Int) :
    Except AriadneError Counts × List BackendType :=
  match env.engine .qiskit c shots with
  | .importFail _ =>
      (.error (.backendUnavailable "qiskit" "Qiskit provider not available"), [])
  | .runFail m =>
      (.error (.simulationError ("Qiskit simulation failed: " ++ m) (some "qiskit")), [.qiskit])
  | .ok cnts => (.ok cnts, [.qiskit])

/-- Translation of `_simulate_tensor_network` (router.py lines 106-121):
an import failure raises `BackendUnavailableError`, but any other engine
failure is swallowed and the helper itself retries on the Qiskit
backend (the "graceful fallback path" of the source). -/
def simulateTensorNetwork (env : Env) (c : Circuit) (shots : Int) :
    Except AriadneError Counts × List BackendType :=
  match env.engine .tensor_network c shots with
  | .importFail _ =>
      (.error (.backendUnavailable "tensor_network"
        "Tensor network dependencies are not installed"), [])
  | .runFail _ =>
      let q := simulateQiskit env c shots
      (q.1, .tensor_network :: q.2)
  | .ok cnts => (.ok cnts, [.tensor_network])

/-- Translation of `_simulate_jax_metal` (router.py lines 124-149). -/
def simulateJaxMetal (env : Env) (c : Circuit) (shots : Int) :
    Except AriadneError Counts × List BackendType :=
  match env.engine .jax_metal c shots with
  | .importFail _ =>
      (.error (.backendUnavailable "metal" "Metal backend dependencies not available"), [])
  | .runFail m =>
      (.error (.simulationError ("Metal backend execution failed: " ++ m) (some "metal")),
        [.jax_metal])
  | .ok cnts => (.ok cnts, [.jax_metal])

/-- Translation of `_simulate_ddsim` (router.py lines 152-167). -/
def simulateDdsim (env : Env) (c : Circuit) (shots : Int) :
    Except AriadneError Counts × List BackendType :=
  match env.engine .ddsim c shots with
  | .importFail _ =>
      (.error (.backendUnavailable "ddsim" "MQT DDSIM not installed"), [])
  | .runFail m =>
      (.error (.simulationError ("DDSIM simulation failed: " ++ m) (some "ddsim")), [.ddsim])
  | .ok cnts => (.ok cnts, [.ddsim])

/-- Translation of `_simulate_mps` (router.py lines 184-198). -/
def simulateMps (env : Env) (c : Circuit) (shots : Int) :
    Except AriadneError Counts × List BackendType :=
  match env.engine .mps c shots with
  | .importFail _ =>
      (.error (.backendUnavailable "mps" "MPS backend dependencies not available"), [])
  | .runFail m =>
      (.error (.simulationError ("MPS simulation failed: " ++ m) (some "mps")), [.mps])
  | .ok cnts => (.ok cnts, [.mps])

/-- Translation of `_simulate_cuda` (router.py lines 170-181): when the
CUDA runtime is not available the helper raises without invoking the
engine; any failure inside the guarded block becomes `SimulationError`. -/
def simulateCuda (env : Env) (c : Circuit) (shots : Int) :
    Except AriadneError Counts × List BackendType :=
  if env.cudaAvailable = false then
    (.error (.backendUnavailable "cuda" "CUDA runtime not available"), [])
  else
    match env.engine .cuda c shots with
    | .importFail m =>
        (.error (.simulationError ("CUDA simulation failed: " ++ m) (some "cuda")), [.cuda])
    | .runFail m =>
        (.error (.simulationError ("CUDA simulation failed: " ++ m) (some "cuda")), [.cuda])
    | .ok cnts => (.ok cnts, [.cuda])

/-- The advisory warning appended on the unknown-backend branch of
`_execute_simulation` (router.py lines 305-307).  In the source the
message is formatted from `backend.value` after `backend` has already
been reassigned to `BackendType.QISKIT` on line 303, so the text names
the Qiskit fallback rather than the unknown kind that was selected. -/
def unknownBackendWarning : String :=
  "Unknown backend " ++ BackendType.qiskit.value ++ " selected, falling back to Qiskit."

/-- The body of the `try` block of `_execute_simulation` (router.py
lines 282-307): dispatch on the recommended backend kind; a kind with no
dedicated handler is executed on Qiskit, the result rebranded as Qiskit
and the advisory warning appended.  Returns the counts together with
the backend recorded as used and the warnings accumulated so far, plus
the engine-invocation trace. -/
def dispatch (env : Env) (c : Circuit) (shots : Int) (b : BackendType) :
    Except AriadneError (Counts × BackendType × List String) × List BackendType :=
  match b with
  | .stim =>
      let r := simulateStim env c shots
      (r.1.map (fun cnts => (cnts, BackendType.stim, [])), r.2)
  | .qiskit =>
      let r := simulateQiskit env c shots
      (r.1.map (fun cnts => (cnts, BackendType.qiskit, [])), r.2)
  | .tensor_network =>
      let r := simulateTensorNetwork env c shots
      (r.1.map (fun cnts => (cnts, BackendType.tensor_network, [])), r.2)
  | .jax_metal =>
      let r := simulateJaxMetal env c shots
      (r.1.map (fun cnts => (cnts, BackendType.jax_metal, [])), r.2)
  | .ddsim =>
      let r := simulateDdsim env c shots
      (r.1.map (fun cnts => (cnts, BackendType.ddsim, [])), r.2)
  | .mps =>
      let r := simulateMps env c shots
      (r.1.map (fun cnts => (cnts, BackendType.mps, [])), r.2)
  | .cuda =>
      let r := simulateCuda env c shots
      (r.1.map (fun cnts => (cnts, BackendType.cuda, [])), r.2)
  | .azure_quantum =>
      let r := simulateQiskit env c shots
      (r.1.map (fun cnts => (cnts, BackendType.qiskit, [unknownBackendWarning])), r.2)

/-- The experimental-backend warnings appended after a successful
execution (router.py lines 338-341), keyed on the backend recorded as
used. -/
def experimentalWarnings (env : Env) (b : BackendType) : List String :=
  if b = BackendType.jax_metal ∧ env.metalAvailable = true then
    ["JAX-Metal support is experimental and may show warnings"]
  else if b = BackendType.cuda ∧ env.cudaAvailable = false then
    ["CUDA backend selected but CUDA not available"]
  else []

/-- Assembling a `SimulationResult` (router.py lines 343-351): the
warnings list becomes `none` when empty. -/
def mkResult (cnts : Counts) (bu : BackendType) (rd : RoutingDecision) (shots : Int)
    (fb : Option String) (ws : List String) : SimulationResult :=
  { counts := cnts
    backend_used := bu
    execution_time := 0
    routing_decision := some rd
    shots := shots
    fallback_reason := fb
    warnings := if ws = [] then none else some ws }

/-- Translation of `_execute_simulation` (router.py lines 246-351).
Control flow, in source order: feasibility check (raising
`ResourceExhaustionError` with required 0 when the backend cannot handle
the circuit, lines 256-259); resource reservation against the
process-wide ceiling (lines 274-278, the reservation semantics modelled
from the spec of the missing `ResourceManager`); dispatch on the backend
kind (lines 282-307); on a dispatch failure, a single fallback attempt
on Qiskit with the original failure recorded as the fallback reason
(lines 309-326), the aggregate error raised when the fallback also
fails; release of the reservation on the success paths (lines 330-332)
— the source has no release on the aggregate-failure raise, and the
embedding mirrors that. -/
def executeSimulation (env : Env) (c : Circuit) (shots : Int)
    (rd : RoutingDecision) (st : SimState) :
    Except AriadneError SimulationResult × SimState :=
  let b := rd.recommended_backend
  let st1 : SimState := { st with feasibilityChecks := st.feasibilityChecks + 1 }
  if feasible env b c = false then
    (.error (.resourceExhaustion "memory" 0 (env.ceiling - st1.outstanding)), st1)
  else
    let est := env.estimate b c
    let st2 : SimState := { st1 with reserveCalls := st1.reserveCalls + 1 }
    if env.ceiling < st2.outstanding + est then
      (.error (.resourceExhaustion "memory" est (env.ceiling - st2.outstanding)), st2)
    else
      let st3 : SimState := { st2 with outstanding := st2.outstanding + est }
      let d := dispatch env c shots b
      let st4 : SimState := { st3 with invocations := st3.invocations ++ d.2 }
      match d.1 with
      | Except.ok (cnts, bu, ws) =>
          let st5 : SimState := { st4 with outstanding := st4.outstanding - est }
          (.ok (mkResult cnts bu rd shots none (ws ++ experimentalWarnings env bu)), st5)
      | Except.error e =>
          let fb := "Backend " ++ b.value ++ " failed: " ++ e.message
          let q := simulateQiskit env c shots
          let st5 : SimState := { st4 with invocations := st4.invocations ++ q.2 }
          match q.1 with
          | Except.ok cnts =>
              let st6 : SimState := { st5 with outstanding := st5.outstanding - est }
              (.ok (mkResult cnts .qiskit rd shots (some fb)
                (experimentalWarnings env .qiskit)), st6)
          | Except.error qe =>
              (.error (.simulationError
                ("All backends failed. Original error: " ++ e.message
                  ++ ". Qiskit fallback error: " ++ qe.message) (some b.value)), st5)

/-- Translation of `simulate` (router.py lines 354-416), in source
order: negative shots are rejected; a circuit with no qubits is a
degenerate success handled before any routing; an explicit backend
override is parsed (unknown names are rejected), feasibility-checked
(raising `CircuitTooLargeError` when the forced backend cannot handle
the circuit) and turned into a forced routing decision; otherwise the
scored router selects the backend.  Either way execution is delegated
to `executeSimulation`. -/
def simulate (env : Env) (c : Circuit) (shots : Int)
    (backendArg : Option String) (st : SimState) :
    Except AriadneError SimulationResult × SimState :=
  if shots < 0 then
    (.error (.valueError "shots must be non-negative"), st)
  else if c.num_qubits = 0 then
    (.ok { counts := if 0 < shots then [("", shots)] else []
           backend_used := .qiskit
           execution_time := 0
           routing_decision := none
           shots := shots
           fallback_reason := none
           warnings := none }, st)
  else
    match backendArg with
    | some s =>
        match BackendType.ofString s with
        | none => (.error (.valueError ("Unknown backend: " ++ s)), st)
        | some bt =>
            let st1 : SimState := { st with feasibilityChecks := st.feasibilityChecks + 1 }
            if feasible env bt c = false then
              (.error (.circuitTooLarge c.num_qubits s), st1)
            else
              executeSimulation env c shots (forcedDecision bt) st1
    | none =>
        let st1 : SimState := { st with routerCalls := st.routerCalls + 1 }
        executeSimulation env c shots (selectOptimalBackend env c) st1

/- Feature extractor (claim C9).  The extractor lives in
`ariadne/route/analyze.py`, which is not part of the snapshot. -/

/-- Modelled from the spec: the fixed Clifford gate-name set of the
feature extractor in the missing `ariadne/route/analyze.py` — identity,
Pauli X/Y/Z, Hadamard, S and S-dagger, CNOT, CZ, SWAP. -/
def cliffordGateNames : List String :=
  ["id", "x", "y", "z", "h", "s", "sdg", "cx", "cz", "swap"]

/-- Modelled from the spec: operation names that are structurally
present but excluded from semantic classification (measurements and
barriers). -/
def excludedNames : List String := ["measure", "barrier"]

/-- The operations of a circuit that participate in Clifford
classification: every non-barrier, non-measurement operation. -/
def qualifyingOps (c : Circuit) : List Operation :=
  c.ops.filter (fun op => !(excludedNames.contains op.name))

/-- Modelled from the spec: the clifford_ratio feature — the fraction of
qualifying operations whose name is in the fixed Clifford set, taken to
be 1 for a circuit with zero qualifying operations (vacuously
Clifford). -/
def clifford_ratio (c : Circuit) : ℚ :=
  let q := qualifyingOps c
  if q.length = 0 then 1
  else ((q.countP (fun op => cliffordGateNames.contains op.name) : ℚ)) / (q.length : ℚ)

/-- Modelled from the spec: is_clifford is true iff clifford_ratio
equals 1.0. -/
def is_clifford (c : Circuit) : Bool :=
  decide (clifford_ratio c = 1)

/- Concrete fixtures used by witnesses and counterexamples. -/

/-- A two-qubit Bell-state circuit: H on qubit 0, CNOT from 0 to 1. -/
def bellCircuit : Circuit :=
  { num_qubits := 2, num_clbits := 2
    ops := [{ name := "h", qubits := [0] }, { name := "cx", qubits := [0, 1] }] }

/-- A circuit with no qubits. -/
def zeroCircuit : Circuit :=
  { num_qubits := 0, num_clbits := 0, ops := [] }

/-- A three-qubit GHZ-style circuit, used with a registry whose backends
all cap out at two qubits. -/
def threeQubitCircuit : Circuit :=
  { num_qubits := 3, num_clbits := 3
    ops := [{ name := "h", qubits := [0] }, { name := "cx", qubits := [0, 1] },
            { name := "cx", qubits := [1, 2] }] }

/-- A benign environment: every engine succeeds, every backend is
available with room for 30 qubits, each call is estimated at 5 units
against a ceiling of 100. -/
def envBase : Env :=
  { engine := fun _ _ _ => .ok [("00", 5), ("11", 5)]
    cudaAvailable := false
    metalAvailable := false
    maxQubits := fun _ => 30
    estimate := fun _ _ => 5
    ceiling := 100
    availableB := fun _ => true }

/-- An environment where the stim engine fails at runtime and every
other engine (Qiskit included) succeeds. -/
def envPrimaryFail : Env :=
  { envBase with engine := fun b _ _ =>
      match b with
      | .stim => .runFail "stim exploded"
      | _ => .ok [("00", 10)] }

/-- An environment where both the stim engine and the Qiskit engine
fail at runtime. -/
def envBothFail : Env :=
  { envBase with engine := fun b _ _ =>
      match b with
      | .stim => .runFail "stim exploded"
      | .qiskit => .runFail "qiskit exploded"
      | _ => .ok [("00", 10)] }

/-- An environment where the tensor-network engine fails at runtime and
every other engine succeeds. -/
def envTNRecover : Env :=
  { envBase with engine := fun b _ _ =>
      match b with
      | .tensor_network => .runFail "contraction failed"
      | _ => .ok [("00", 10)] }

/-- An environment where both the tensor-network engine and the Qiskit
engine fail at runtime. -/
def envTNBoth : Env :=
  { envBase with engine := fun b _ _ =>
      match b with
      | .tensor_network => .runFail "contraction failed"
      | .qiskit => .runFail "qiskit exploded"
      | _ => .ok [("00", 10)] }

/-- The benign environment with every backend capped at two qubits. -/
def envSmallCap : Env :=
  { envBase with maxQubits := fun _ => 2 }

/-- The benign environment with a resource ceiling of 3, below the
uniform per-call estimate of 5. -/
def envTightCeiling : Env :=
  { envBase with ceiling := 3 }

/-- Whether a call outcome is the typed CircuitTooLarge error. -/
def isCircuitTooLargeOutcome : Except AriadneError SimulationResult → Bool
  | .error (.circuitTooLarge _ _) => true
  | _ => false

/- Helper lemmas shared by several claims. -/

/-- Every backend kind appears in the fixed preference order, so a
quantifier over `backendOrder` covers the whole registry. -/
theorem backendOrderComplete : ∀ b : BackendType, b ∈ backendOrder := by
  intro b
  cases b <;> decide

/-- The experimental-backend warnings are empty when the backend
recorded as used is Qiskit. -/
theorem experimentalWarningsQiskit (env : Env) :
    experimentalWarnings env .qiskit = [] := by
  simp [experimentalWarnings]

/-- Appending to a string with nonempty data keeps the data nonempty. -/
theorem appendDataNeNil (s t : String) (h : s.data ≠ []) : (s ++ t).data ≠ [] := by
  intro hc
  apply h
  rw [String.data_append] at hc
  exact (List.append_eq_nil.mp hc).1

/-- A string whose left part has nonempty data is not the empty string. -/
theorem appendNeEmpty (s t : String) (h : s.data ≠ []) : s ++ t ≠ "" := by
  intro hc
  exact appendDataNeNil s t h (by rw [hc])

/-- The fallback-reason string built by `executeSimulation` is never
empty. -/
theorem fallbackReasonNeEmpty (v m : String) :
    "Backend " ++ v ++ " failed: " ++ m ≠ "" :=
  appendNeEmpty _ _ (appendDataNeNil _ _ (appendDataNeNil _ _ (by decide)))

/-- The execution controller never touches the router-selection
counter. -/
theorem execRouterCalls (env : Env) (c : Circuit) (shots : Int)
    (rd : RoutingDecision) (st : SimState) :
    (executeSimulation env c shots rd st).2.routerCalls = st.routerCalls := by
  unfold executeSimulation
  dsimp only
  split
  · rfl
  split
  · rfl
  split
  · rfl
  split <;> rfl

/-- The execution controller performs exactly one feasibility check. -/
theorem execFeasibilityChecks (env : Env) (c : Circuit) (shots : Int)
    (rd : RoutingDecision) (st : SimState) :
    (executeSimulation env c shots rd st).2.feasibilityChecks = st.feasibilityChecks + 1 := by
  unfold executeSimulation
  dsimp only
  split
  · rfl
  split
  · rfl
  split
  · rfl
  split <;> rfl

/-- Once the feasibility check passes, the execution controller
attempts exactly one reservation, whatever the outcome of the
reservation, the dispatch and the fallback (router.py line 275 is
reached on every such path). -/
theorem execReserveCalls (env : Env) (c : Circuit) (shots : Int)
    (rd : RoutingDecision) (st : SimState)
    (hf : feasible env rd.recommended_backend c = true) :
    (executeSimulation env c shots rd st).2.reserveCalls = st.reserveCalls + 1 := by
  unfold executeSimulation
  dsimp only
  rw [if_neg (by simp [hf])]
  split
  · rfl
  split
  · rfl
  split <;> rfl

/-- The Qiskit helper invokes at most one engine. -/
theorem simulateQiskitTraceLength (env : Env) (c : Circuit) (shots : Int) :
    (simulateQiskit env c shots).2.length ≤ 1 := by
  unfold simulateQiskit
  cases env.engine .qiskit c shots <;> simp

/-- One dispatch of the execution controller invokes at most two
engines (two only on the internal tensor-network retry). -/
theorem dispatchTraceLength (env : Env) (c : Circuit) (shots : Int) (b : BackendType) :
    (dispatch env c shots b).2.length ≤ 2 := by
  have hq := simulateQiskitTraceLength env c shots
  cases b
  case stim =>
    unfold dispatch simulateStim
    cases env.engine .stim c shots <;> simp
  case qiskit =>
    unfold dispatch
    dsimp only
    omega
  case tensor_network =>
    unfold dispatch simulateTensorNetwork
    cases env.engine .tensor_network c shots <;> simp
    omega
  case jax_metal =>
    unfold dispatch simulateJaxMetal
    cases env.engine .jax_metal c shots <;> simp
  case ddsim =>
    unfold dispatch simulateDdsim
    cases env.engine .ddsim c shots <;> simp
  case mps =>
    unfold dispatch simulateMps
    cases env.engine .mps c shots <;> simp
  case cuda =>
    unfold dispatch simulateCuda
    dsimp only
    split
    · simp
    · cases env.engine .cuda c shots <;> simp
  case azure_quantum =>
    unfold dispatch
    dsimp only
    omega

/-- When the selected backend cannot handle the circuit, the execution
controller fails with the resource-exhausted error before any
reservation or execution (router.py lines 256-259). -/
theorem execInfeasible (env : Env) (c : Circuit) (shots : Int)
    (rd : RoutingDecision) (st : SimState)
    (hf : feasible env rd.recommended_backend c = false) :
    executeSimulation env c shots rd st =
      (Except.error (AriadneError.resourceExhaustion "memory" 0 (env.ceiling - st.outstanding)),
       { st with feasibilityChecks := st.feasibilityChecks + 1 }) := by
  simp only [executeSimulation, hf]
  rfl

/-- When the reservation would exceed the ceiling, the execution
controller fails with the resource-exhausted error before any execution
(router.py lines 274-278, reservation semantics modelled from the
spec). -/
theorem execReserveFail (env : Env) (c : Circuit) (shots : Int)
    (rd : RoutingDecision) (st : SimState)
    (hf : feasible env rd.recommended_backend c = true)
    (hr : env.ceiling < st.outstanding + env.estimate rd.recommended_backend c) :
    executeSimulation env c shots rd st =
      (Except.error (AriadneError.resourceExhaustion "memory"
          (env.estimate rd.recommended_backend c) (env.ceiling - st.outstanding)),
       { st with feasibilityChecks := st.feasibilityChecks + 1,
                 reserveCalls := st.reserveCalls + 1 }) := by
  simp only [executeSimulation, hf]
  simp [hr]

/-- When the dispatch of the selected backend fails and the Qiskit
fallback succeeds, the execution controller returns a normal result
with the backend recorded as Qiskit and the fallback reason built from
the original failure; the reservation is balanced (outstanding returns
to its pre-call value). -/
theorem execFallbackSuccess (env : Env) (c : Circuit) (shots : Int)
    (rd : RoutingDecision) (st : SimState) (e : AriadneError) (cnt : Counts)
    (hf : feasible env rd.recommended_backend c = true)
    (hr : st.outstanding + env.estimate rd.recommended_backend c ≤ env.ceiling)
    (hd : (dispatch env c shots rd.recommended_backend).1 = Except.error e)
    (hk : (simulateQiskit env c shots).1 = Except.ok cnt) :
    ∃ stf, executeSimulation env c shots rd st =
        (Except.ok (mkResult cnt .qiskit rd shots
          (some ("Backend " ++ rd.recommended_backend.value ++ " failed: " ++ e.message))
          (experimentalWarnings env .qiskit)), stf) ∧
      stf.outstanding = st.outstanding ∧
      stf.invocations = st.invocations ++ (dispatch env c shots rd.recommended_backend).2
        ++ (simulateQiskit env c shots).2 ∧
      stf.routerCalls = st.routerCalls := by
  have hr' : ¬ env.ceiling < st.outstanding + env.estimate rd.recommended_backend c :=
    not_lt.mpr hr
  simp only [executeSimulation, hf]
  simp only [hr', if_false, ite_false, if_neg hr']
  rw [hd, hk]
  refine ⟨_, rfl, ?_, ?_, ?_⟩
  · simp
  · simp
  · rfl

/-- When the dispatch of the selected backend fails and the Qiskit
fallback also fails, the execution controller surfaces the aggregate
error naming both failures; the reservation taken for the call stays
outstanding (the source has no release on this path). -/
theorem execDoubleFailure (env : Env) (c : Circuit) (shots : Int)
    (rd : RoutingDecision) (st : SimState) (e qe : AriadneError)
    (hf : feasible env rd.recommended_backend c = true)
    (hr : st.outstanding + env.estimate rd.recommended_backend c ≤ env.ceiling)
    (hd : (dispatch env c shots rd.recommended_backend).1 = Except.error e)
    (hk : (simulateQiskit env c shots).1 = Except.error qe) :
    ∃ stf, executeSimulation env c shots rd st =
        (Except.error (AriadneError.simulationError
          ("All backends failed. Original error: " ++ e.message
            ++ ". Qiskit fallback error: " ++ qe.message)
          (some rd.recommended_backend.value)), stf) ∧
      stf.outstanding = st.outstanding + env.estimate rd.recommended_backend c ∧
      stf.invocations = st.invocations ++ (dispatch env c shots rd.recommended_backend).2
        ++ (simulateQiskit env c shots).2 := by
  have hr' : ¬ env.ceiling < st.outstanding + env.estimate rd.recommended_backend c :=
    not_lt.mpr hr
  simp only [executeSimulation, hf]
  simp only [hr', if_false, ite_false, if_neg hr']
  rw [hd, hk]
  exact ⟨_, rfl, rfl, rfl⟩

/-- When no backend is capacity-compatible with the circuit, the
modelled scored router returns the guaranteed-general Qiskit backend
with confidence zero. -/
theorem selectOptimalNoCandidate (env : Env) (c : Circuit)
    (h : ∀ b, feasible env b c = false) :
    selectOptimalBackend env c =
      { circuit_entropy := 0, recommended_backend := .qiskit, confidence_score := 0,
        expected_speedup := 1, channel_capacity_match := 0, alternatives := [] } := by
  unfold selectOptimalBackend
  have hnil : backendOrder.filter (fun b => env.availableB b && feasible env b c) = [] := by
    refine List.filter_eq_nil_iff.mpr ?_
    intro b _
    simp [h b]
  rw [hnil]

/-- C1: the claim states that after any `simulate` call on a circuit
with at least one qubit the aggregate outstanding reservation returns to
its pre-call value, the reservation being released exactly once on every
control-flow exit path.  The code violates this: when the selected
backend fails and the Qiskit fallback also fails, `_execute_simulation`
re-raises without releasing `reserved_resources` (router.py lines
320-326 have no release and there is no try/finally).  Here, starting
from an empty ledger (`SimState.init`, outstanding 0), a call in which
the stim engine and the Qiskit engine both fail ends with the aggregate
outstanding reservation at 5 — the estimate reserved for the call leaks. -/
theorem c1_reservation_leak_on_double_failure :
    simulate envBothFail bellCircuit 10 none SimState.init =
      (Except.error (AriadneError.simulationError
          ("All backends failed. Original error: Stim simulation failed: stim exploded. Qiskit fallback error: Qiskit simulation failed: qiskit exploded")
          (some "stim")),
       { outstanding := 5, invocations := [.stim, .qiskit], routerCalls := 1,
         feasibilityChecks := 1, reserveCalls := 1 }) ∧
    SimState.init.outstanding = 0 := by
  constructor
  · rfl
  · rfl

/-- C2 counterexample: the claim states that whenever the initially
selected backend raises an execution failure and Qiskit then succeeds,
the result carries a non-empty fallback_reason and records the backend
that actually ran.  With the tensor-network backend selected, a runtime
engine failure is swallowed inside `_simulate_tensor_network` (router.py
lines 114-121), which silently retries Qiskit: the engine of the
selected backend raised, Qiskit ran and succeeded (the invocation trace
shows both), yet the result has fallback_reason `none` and records
tensor_network as the backend used. -/
theorem c2_tensor_network_silent_recovery_counterexample :
    envTNRecover.engine .tensor_network bellCircuit 10 =
      EngineOutcome.runFail "contraction failed" ∧
    simulate envTNRecover bellCircuit 10 (some "tensor_network") SimState.init =
      (Except.ok { counts := [("00", 10)]
                   backend_used := .tensor_network
                   execution_time := 0
                   routing_decision := some (forcedDecision .tensor_network)
                   shots := 10
                   fallback_reason := none
                   warnings := none },
       { outstanding := 0, invocations := [.tensor_network, .qiskit], routerCalls := 0,
         feasibilityChecks := 2, reserveCalls := 1 }) := by
  exact ⟨rfl, rfl⟩

/-- C2 amended: for every call in which the failure of the initially
selected backend propagates to the controller (every case except the
silent internal recovery of the tensor-network helper) and the Qiskit
fallback then succeeds, `simulate` returns a normal result whose
fallback_reason is non-empty and contains the original failure message,
and whose backend_used is Qiskit, the backend that actually ran; the
reservation is balanced. -/
theorem c2_fallback_populates_reason_and_backend
    (env : Env) (c : Circuit) (shots : Int) (st : SimState)
    (e : AriadneError) (cnt : Counts)
    (hq : c.num_qubits ≠ 0) (hs : 0 ≤ shots)
    (hf : feasible env (selectOptimalBackend env c).recommended_backend c = true)
    (hr : st.outstanding
      + env.estimate (selectOptimalBackend env c).recommended_backend c ≤ env.ceiling)
    (hd : (dispatch env c shots (selectOptimalBackend env c).recommended_backend).1
      = Except.error e)
    (hk : (simulateQiskit env c shots).1 = Except.ok cnt) :
    (simulate env c shots none st).1.map (fun r => r.backend_used)
        = Except.ok BackendType.qiskit ∧
    (simulate env c shots none st).1.map (fun r => r.fallback_reason)
        = Except.ok (some ("Backend "
            ++ (selectOptimalBackend env c).recommended_backend.value
            ++ " failed: " ++ e.message)) ∧
    ("Backend " ++ (selectOptimalBackend env c).recommended_backend.value
        ++ " failed: " ++ e.message) ≠ "" ∧
    (simulate env c shots none st).1.map (fun r => r.counts) = Except.ok cnt ∧
    (simulate env c shots none st).2.outstanding = st.outstanding := by
  obtain ⟨stf, heq, ho, _, _⟩ := execFallbackSuccess env c shots (selectOptimalBackend env c)
    { st with routerCalls := st.routerCalls + 1 } e cnt hf (by simpa using hr) hd hk
  have hsim : simulate env c shots none st =
      (Except.ok (mkResult cnt .qiskit (selectOptimalBackend env c) shots
        (some ("Backend " ++ (selectOptimalBackend env c).recommended_backend.value
          ++ " failed: " ++ e.message))
        (experimentalWarnings env .qiskit)), stf) := by
    simp only [simulate, if_neg (not_lt.mpr hs), if_neg hq]
    exact heq
  rw [hsim]
  refine ⟨rfl, rfl, ?_, rfl, ?_⟩
  · exact fallbackReasonNeEmpty (selectOptimalBackend env c).recommended_backend.value
      e.message
  · simpa using ho

/-- C2 witness: with the stim backend selected by the router, the stim
engine failing and Qiskit succeeding, the result is a success with
backend_used Qiskit and the fallback reason naming the stim failure. -/
theorem c2_fallback_populates_reason_witness :
    (simulate envPrimaryFail bellCircuit 10 none SimState.init).1.map
        (fun r => r.backend_used) = Except.ok BackendType.qiskit ∧
    (simulate envPrimaryFail bellCircuit 10 none SimState.init).1.map
        (fun r => r.fallback_reason)
        = Except.ok (some ("Backend "
            ++ (selectOptimalBackend envPrimaryFail bellCircuit).recommended_backend.value
            ++ " failed: "
            ++ (AriadneError.simulationError "Stim simulation failed: stim exploded"
                (some "stim")).message)) ∧
    ("Backend " ++ (selectOptimalBackend envPrimaryFail bellCircuit).recommended_backend.value
        ++ " failed: "
        ++ (AriadneError.simulationError "Stim simulation failed: stim exploded"
            (some "stim")).message) ≠ "" ∧
    (simulate envPrimaryFail bellCircuit 10 none SimState.init).1.map
        (fun r => r.counts) = Except.ok [("00", 10)] ∧
    (simulate envPrimaryFail bellCircuit 10 none SimState.init).2.outstanding
        = SimState.init.outstanding :=
  c2_fallback_populates_reason_and_backend envPrimaryFail bellCircuit 10 SimState.init
    (AriadneError.simulationError "Stim simulation failed: stim exploded" (some "stim"))
    [("00", 10)] (by decide) (by decide) (by decide) (by decide) (by rfl) (by rfl)

/-- C3 counterexample: the claim states that when the initially
selected backend and the fallback both fail, at most two backend
invocations happen in one call.  With the tensor-network backend
selected and both the tensor-network engine and the Qiskit engine
failing, three engine invocations occur: the tensor-network helper
internally retries Qiskit (router.py line 121) before the controller
retries Qiskit again (line 317).  The aggregate error is still
surfaced. -/
theorem c3_three_engine_invocations_counterexample :
    envTNBoth.engine .tensor_network bellCircuit 10 =
      EngineOutcome.runFail "contraction failed" ∧
    envTNBoth.engine .qiskit bellCircuit 10 = EngineOutcome.runFail "qiskit exploded" ∧
    simulate envTNBoth bellCircuit 10 (some "tensor_network") SimState.init =
      (Except.error (AriadneError.simulationError
          ("All backends failed. Original error: Qiskit simulation failed: qiskit exploded. Qiskit fallback error: Qiskit simulation failed: qiskit exploded")
          (some "tensor_network")),
       { outstanding := 5,
         invocations := [.tensor_network, .qiskit, .qiskit],
         routerCalls := 0, feasibilityChecks := 2, reserveCalls := 1 }) ∧
    [BackendType.tensor_network, .qiskit, .qiskit].length = 3 := by
  exact ⟨rfl, rfl, rfl, rfl⟩

/-- C3 amended: when the dispatch of the router-selected backend fails
and the Qiskit fallback also fails, `simulate` surfaces an aggregate
error containing both the original and the fallback failure messages
and attempts no further fallback: at most one controller-level fallback
hop occurs, hence at most three engine invocations in one call (two
plus the internal Qiskit retry of the tensor-network helper; at most
two for every other backend). -/
theorem c3_aggregate_error_and_bounded_invocations
    (env : Env) (c : Circuit) (shots : Int) (st : SimState) (e qe : AriadneError)
    (hq : c.num_qubits ≠ 0) (hs : 0 ≤ shots)
    (hf : feasible env (selectOptimalBackend env c).recommended_backend c = true)
    (hr : st.outstanding
      + env.estimate (selectOptimalBackend env c).recommended_backend c ≤ env.ceiling)
    (hd : (dispatch env c shots (selectOptimalBackend env c).recommended_backend).1
      = Except.error e)
    (hk : (simulateQiskit env c shots).1 = Except.error qe) :
    (simulate env c shots none st).1 =
        Except.error (AriadneError.simulationError
          ("All backends failed. Original error: " ++ e.message
            ++ ". Qiskit fallback error: " ++ qe.message)
          (some (selectOptimalBackend env c).recommended_backend.value)) ∧
    (simulate env c shots none st).2.invocations.length
        ≤ st.invocations.length + 3 := by
  obtain ⟨stf, heq, _, hi⟩ := execDoubleFailure env c shots (selectOptimalBackend env c)
    { st with routerCalls := st.routerCalls + 1 } e qe hf (by simpa using hr) hd hk
  have hsim : simulate env c shots none st =
      (Except.error (AriadneError.simulationError
        ("All backends failed. Original error: " ++ e.message
          ++ ". Qiskit fallback error: " ++ qe.message)
        (some (selectOptimalBackend env c).recommended_backend.value)), stf) := by
    simp only [simulate, if_neg (not_lt.mpr hs), if_neg hq]
    exact heq
  rw [hsim]
  refine ⟨rfl, ?_⟩
  have h2 := dispatchTraceLength env c shots (selectOptimalBackend env c).recommended_backend
  have h1 := simulateQiskitTraceLength env c shots
  simp only [hi, List.length_append]
  omega

/-- C3 witness: with the stim backend selected and both the stim engine
and the Qiskit engine failing, the aggregate error names both failures
and the invocation trace is bounded. -/
theorem c3_aggregate_error_witness :
    (simulate envBothFail bellCircuit 10 none SimState.init).1 =
        Except.error (AriadneError.simulationError
          ("All backends failed. Original error: "
            ++ (AriadneError.simulationError "Stim simulation failed: stim exploded"
                (some "stim")).message
            ++ ". Qiskit fallback error: "
            ++ (AriadneError.simulationError "Qiskit simulation failed: qiskit exploded"
                (some "qiskit")).message)
          (some (selectOptimalBackend envBothFail bellCircuit).recommended_backend.value)) ∧
    (simulate envBothFail bellCircuit 10 none SimState.init).2.invocations.length
        ≤ SimState.init.invocations.length + 3 :=
  c3_aggregate_error_and_bounded_invocations envBothFail bellCircuit 10 SimState.init
    (AriadneError.simulationError "Stim simulation failed: stim exploded" (some "stim"))
    (AriadneError.simulationError "Qiskit simulation failed: qiskit exploded" (some "qiskit"))
    (by decide) (by decide) (by decide) (by decide) (by rfl) (by rfl)

/-- C4 counterexample: the claim states that a circuit whose qubit
count exceeds the maximum of every candidate backend makes `simulate`
fail with the typed CircuitTooLarge error.  On the no-override path the
router (modelled from the spec) returns the guaranteed Qiskit backend,
and the feasibility check of `_execute_simulation` then raises the
resource-exhausted error (router.py lines 256-259), not
CircuitTooLarge. -/
theorem c4_router_path_raises_resource_exhaustion_counterexample :
    backendOrder.all
        (fun b => decide (envSmallCap.maxQubits b < threeQubitCircuit.num_qubits)) = true ∧
    simulate envSmallCap threeQubitCircuit 10 none SimState.init =
      (Except.error (AriadneError.resourceExhaustion "memory" 0 100),
       { outstanding := 0, invocations := [], routerCalls := 1,
         feasibilityChecks := 1, reserveCalls := 0 }) ∧
    isCircuitTooLargeOutcome
        (simulate envSmallCap threeQubitCircuit 10 none SimState.init).1 = false := by
  exact ⟨rfl, rfl, rfl⟩

/-- C4 amended: for every circuit whose qubit count exceeds the maximum
of every backend, `simulate` fails before any execution, fallback or
reservation (the state records no engine invocation and no reservation
attempt beyond the forced-path feasibility check, and the outstanding
reservation is unchanged): on the forced-override path with the typed
CircuitTooLarge error, on the router path with the resource-exhausted
error raised by the feasibility check of the execution controller. -/
theorem c4_too_large_fails_before_execution
    (env : Env) (c : Circuit) (shots : Int) (st : SimState)
    (hs : 0 ≤ shots)
    (h : ∀ b, env.maxQubits b < c.num_qubits) :
    (simulate env c shots none st =
      (Except.error (AriadneError.resourceExhaustion "memory" 0 (env.ceiling - st.outstanding)),
       { st with routerCalls := st.routerCalls + 1,
                 feasibilityChecks := st.feasibilityChecks + 1 })) ∧
    (∀ s bt, BackendType.ofString s = some bt →
      simulate env c shots (some s) st =
        (Except.error (AriadneError.circuitTooLarge c.num_qubits s),
         { st with feasibilityChecks := st.feasibilityChecks + 1 })) := by
  have hq : c.num_qubits ≠ 0 := by have := h .qiskit; omega
  have hfb : ∀ b, feasible env b c = false := by
    intro b
    have := h b
    simp only [feasible, decide_eq_false_iff_not]
    omega
  constructor
  · simp only [simulate, if_neg (not_lt.mpr hs), if_neg hq]
    rw [selectOptimalNoCandidate env c hfb]
    rw [execInfeasible env c shots _ _ (hfb .qiskit)]
  · intro s bt hp
    simp only [simulate, if_neg (not_lt.mpr hs), if_neg hq, hp]
    simp [hfb bt]

/-- C4 witness: the three-qubit circuit against the two-qubit-capped
registry fails on both paths with the state showing no execution and no
reservation. -/
theorem c4_too_large_fails_before_execution_witness :
    (simulate envSmallCap threeQubitCircuit 10 none SimState.init =
      (Except.error (AriadneError.resourceExhaustion "memory" 0
        (envSmallCap.ceiling - SimState.init.outstanding)),
       { SimState.init with routerCalls := SimState.init.routerCalls + 1,
                            feasibilityChecks := SimState.init.feasibilityChecks + 1 })) ∧
    simulate envSmallCap threeQubitCircuit 10 (some "stim") SimState.init =
      (Except.error (AriadneError.circuitTooLarge threeQubitCircuit.num_qubits "stim"),
       { SimState.init with feasibilityChecks := SimState.init.feasibilityChecks + 1 }) := by
  have h := c4_too_large_fails_before_execution envSmallCap threeQubitCircuit 10
    SimState.init (by decide) (fun b => by cases b <;> decide)
  exact ⟨h.1, h.2 "stim" .stim rfl⟩

/-- C5: when the router-selected backend passes the feasibility check
but admission control rejects the initial reservation (the ceiling
would be exceeded), `simulate` fails immediately with the
resource-exhausted error: the final state shows no engine invocation
(no execution and no fallback) and an unchanged outstanding
reservation. -/
theorem c5_admission_rejection_fails_immediately
    (env : Env) (c : Circuit) (shots : Int) (st : SimState)
    (hq : c.num_qubits ≠ 0) (hs : 0 ≤ shots)
    (hf : feasible env (selectOptimalBackend env c).recommended_backend c = true)
    (hr : env.ceiling < st.outstanding
      + env.estimate (selectOptimalBackend env c).recommended_backend c) :
    simulate env c shots none st =
      (Except.error (AriadneError.resourceExhaustion "memory"
          (env.estimate (selectOptimalBackend env c).recommended_backend c)
          (env.ceiling - st.outstanding)),
       { st with routerCalls := st.routerCalls + 1,
                 feasibilityChecks := st.feasibilityChecks + 1,
                 reserveCalls := st.reserveCalls + 1 }) := by
  simp only [simulate, if_neg (not_lt.mpr hs), if_neg hq]
  rw [execReserveFail env c shots _ _ hf (by simpa using hr)]

/-- C5 witness: with every estimate at 5 against a ceiling of 3, the
call fails as resource-exhausted with nothing invoked and nothing
reserved. -/
theorem c5_admission_rejection_witness :
    simulate envTightCeiling bellCircuit 10 none SimState.init =
      (Except.error (AriadneError.resourceExhaustion "memory"
          (envTightCeiling.estimate
            (selectOptimalBackend envTightCeiling bellCircuit).recommended_backend bellCircuit)
          (envTightCeiling.ceiling - SimState.init.outstanding)),
       { SimState.init with routerCalls := SimState.init.routerCalls + 1,
                            feasibilityChecks := SimState.init.feasibilityChecks + 1,
                            reserveCalls := SimState.init.reserveCalls + 1 }) :=
  c5_admission_rejection_fails_immediately envTightCeiling bellCircuit 10 SimState.init
    (by decide) (by decide) (by decide) (by decide)

/-- C6: a known forced backend override never invokes the scored router
(the router-selection counter is unchanged on every path), but still
passes through admission control: the feasibility check runs, and
whenever the forced backend is feasible exactly one reservation is
attempted; when admission rejects that reservation the call fails
immediately as resource-exhausted with no execution and an unchanged
outstanding reservation; and on a dispatch failure of the forced
backend the call follows the same single-fallback path to Qiskit with a
non-empty fallback_reason naming the original failure and the
reservation balanced. -/
theorem c6_forced_override_bypasses_router_keeps_admission
    (env : Env) (c : Circuit) (shots : Int) (s : String) (bt : BackendType) (st : SimState)
    (hp : BackendType.ofString s = some bt)
    (hq : c.num_qubits ≠ 0) (hs : 0 ≤ shots) :
    (simulate env c shots (some s) st).2.routerCalls = st.routerCalls ∧
    st.feasibilityChecks + 1 ≤ (simulate env c shots (some s) st).2.feasibilityChecks ∧
    (feasible env bt c = true →
      (simulate env c shots (some s) st).2.reserveCalls = st.reserveCalls + 1) ∧
    (feasible env bt c = true →
      env.ceiling < st.outstanding + env.estimate bt c →
      (simulate env c shots (some s) st).1
          = Except.error (AriadneError.resourceExhaustion "memory" (env.estimate bt c)
              (env.ceiling - st.outstanding)) ∧
      (simulate env c shots (some s) st).2.outstanding = st.outstanding ∧
      (simulate env c shots (some s) st).2.invocations = st.invocations) ∧
    (∀ e cnt,
      feasible env bt c = true →
      st.outstanding + env.estimate bt c ≤ env.ceiling →
      (dispatch env c shots bt).1 = Except.error e →
      (simulateQiskit env c shots).1 = Except.ok cnt →
      (simulate env c shots (some s) st).1.map (fun r => r.backend_used)
          = Except.ok BackendType.qiskit ∧
      (simulate env c shots (some s) st).1.map (fun r => r.fallback_reason)
          = Except.ok (some ("Backend " ++ bt.value ++ " failed: " ++ e.message)) ∧
      ("Backend " ++ bt.value ++ " failed: " ++ e.message) ≠ "" ∧
      (simulate env c shots (some s) st).2.outstanding = st.outstanding ∧
      (simulate env c shots (some s) st).2.reserveCalls = st.reserveCalls + 1) := by
  refine ⟨?_, ?_, ?_, ?_, ?_⟩
  · simp only [simulate, if_neg (not_lt.mpr hs), if_neg hq, hp]
    split
    · rfl
    · rw [execRouterCalls]
  · simp only [simulate, if_neg (not_lt.mpr hs), if_neg hq, hp]
    split
    · simp
    · rw [execFeasibilityChecks]
      simp
  · intro hf
    simp only [simulate, if_neg (not_lt.mpr hs), if_neg hq, hp]
    rw [if_neg (by simp [hf])]
    rw [execReserveCalls env c shots (forcedDecision bt) _ hf]
  · intro hf hr
    have hsim : simulate env c shots (some s) st =
        (Except.error (AriadneError.resourceExhaustion "memory" (env.estimate bt c)
            (env.ceiling - st.outstanding)),
         { st with feasibilityChecks := st.feasibilityChecks + 1 + 1,
                   reserveCalls := st.reserveCalls + 1 }) := by
      simp only [simulate, if_neg (not_lt.mpr hs), if_neg hq, hp]
      rw [if_neg (by simp [hf])]
      exact execReserveFail env c shots (forcedDecision bt) _ hf (by simpa using hr)
    rw [hsim]
    exact ⟨rfl, rfl, rfl⟩
  · intro e cnt hf hr hd hk
    obtain ⟨stf, heq, ho, _, _⟩ := execFallbackSuccess env c shots (forcedDecision bt)
      { st with feasibilityChecks := st.feasibilityChecks + 1 } e cnt hf (by simpa using hr)
      hd hk
    have hsim : simulate env c shots (some s) st =
        (Except.ok (mkResult cnt .qiskit (forcedDecision bt) shots
          (some ("Backend " ++ bt.value ++ " failed: " ++ e.message))
          (experimentalWarnings env .qiskit)), stf) := by
      simp only [simulate, if_neg (not_lt.mpr hs), if_neg hq, hp]
      rw [if_neg (by simp [hf])]
      exact heq
    have hrc : (simulate env c shots (some s) st).2.reserveCalls = st.reserveCalls + 1 := by
      simp only [simulate, if_neg (not_lt.mpr hs), if_neg hq, hp]
      rw [if_neg (by simp [hf])]
      rw [execReserveCalls env c shots (forcedDecision bt) _ hf]
    refine ⟨?_, ?_, fallbackReasonNeEmpty bt.value e.message, ?_, hrc⟩
    · rw [hsim]
      rfl
    · rw [hsim]
      rfl
    · rw [hsim]
      simpa using ho

/-- C6 witness: forcing the stim backend while its engine fails and
Qiskit succeeds: the router is never selected from, the feasibility
check and exactly one reservation run, and the fallback result names
the stim failure with the reservation balanced; forcing the stim
backend against the tight resource ceiling: admission rejects the
reservation and the call fails immediately as resource-exhausted with
nothing executed and nothing left outstanding. -/
theorem c6_forced_override_witness :
    (simulate envPrimaryFail bellCircuit 10 (some "stim") SimState.init).2.routerCalls
        = SimState.init.routerCalls ∧
    SimState.init.feasibilityChecks + 1
        ≤ (simulate envPrimaryFail bellCircuit 10 (some "stim") SimState.init).2.feasibilityChecks ∧
    (simulate envPrimaryFail bellCircuit 10 (some "stim") SimState.init).2.reserveCalls
        = SimState.init.reserveCalls + 1 ∧
    ((simulate envTightCeiling bellCircuit 10 (some "stim") SimState.init).1
        = Except.error (AriadneError.resourceExhaustion "memory"
            (envTightCeiling.estimate BackendType.stim bellCircuit)
            (envTightCeiling.ceiling - SimState.init.outstanding)) ∧
      (simulate envTightCeiling bellCircuit 10 (some "stim") SimState.init).2.outstanding
        = SimState.init.outstanding ∧
      (simulate envTightCeiling bellCircuit 10 (some "stim") SimState.init).2.invocations
        = SimState.init.invocations) ∧
    ((simulate envPrimaryFail bellCircuit 10 (some "stim") SimState.init).1.map
        (fun r => r.backend_used) = Except.ok BackendType.qiskit ∧
      (simulate envPrimaryFail bellCircuit 10 (some "stim") SimState.init).1.map
        (fun r => r.fallback_reason)
        = Except.ok (some ("Backend " ++ BackendType.stim.value ++ " failed: "
            ++ (AriadneError.simulationError "Stim simulation failed: stim exploded"
                (some "stim")).message)) ∧
      ("Backend " ++ BackendType.stim.value ++ " failed: "
        ++ (AriadneError.simulationError "Stim simulation failed: stim exploded"
            (some "stim")).message) ≠ "" ∧
      (simulate envPrimaryFail bellCircuit 10 (some "stim") SimState.init).2.outstanding
        = SimState.init.outstanding ∧
      (simulate envPrimaryFail bellCircuit 10 (some "stim") SimState.init).2.reserveCalls
        = SimState.init.reserveCalls + 1) := by
  have h := c6_forced_override_bypasses_router_keeps_admission envPrimaryFail bellCircuit 10
    "stim" .stim SimState.init rfl (by decide) (by decide)
  have h' := c6_forced_override_bypasses_router_keeps_admission envTightCeiling bellCircuit 10
    "stim" .stim SimState.init rfl (by decide) (by decide)
  exact ⟨h.1, h.2.1, h.2.2.1 (by decide),
    h'.2.2.2.1 (by decide) (by decide),
    h.2.2.2.2
      (AriadneError.simulationError "Stim simulation failed: stim exploded" (some "stim"))
      [("00", 10)] (by decide) (by decide) (by rfl) (by rfl)⟩

/-- C7: for shots at least 0, `simulate` on a zero-qubit circuit
succeeds without invoking any backend, the router, or any resource work
(the state is returned untouched), with counts mapping the empty
bitstring to `shots` when shots is positive and empty counts when shots
is 0; for negative shots `simulate` fails on every circuit with the
shots `ValueError`. -/
theorem c7_zero_qubit_and_negative_shots (env : Env) (c : Circuit) (shots : Int)
    (bArg : Option String) (st : SimState) :
    (c.num_qubits = 0 → 0 ≤ shots →
      simulate env c shots bArg st =
        (Except.ok { counts := if 0 < shots then [("", shots)] else []
                     backend_used := .qiskit
                     execution_time := 0
                     routing_decision := none
                     shots := shots
                     fallback_reason := none
                     warnings := none }, st)) ∧
    (shots < 0 →
      simulate env c shots bArg st =
        (Except.error (AriadneError.valueError "shots must be non-negative"), st)) := by
  constructor
  · intro h0 hs
    simp [simulate, h0, not_lt.mpr hs]
  · intro hneg
    simp [simulate, hneg]

/-- C7 witness: a zero-qubit circuit with shots 5 yields exactly the
counts mapping the empty bitstring to 5, with shots 0 empty counts, and
shots -1 fails, all leaving the state untouched. -/
theorem c7_zero_qubit_and_negative_shots_witness :
    simulate envBase zeroCircuit 5 none SimState.init =
      (Except.ok { counts := [("", 5)], backend_used := .qiskit, execution_time := 0,
                   routing_decision := none, shots := 5, fallback_reason := none,
                   warnings := none }, SimState.init) ∧
    simulate envBase zeroCircuit 0 none SimState.init =
      (Except.ok { counts := [], backend_used := .qiskit, execution_time := 0,
                   routing_decision := none, shots := 0, fallback_reason := none,
                   warnings := none }, SimState.init) ∧
    simulate envBase bellCircuit (-1) none SimState.init =
      (Except.error (AriadneError.valueError "shots must be non-negative"), SimState.init) := by
  refine ⟨?_, ?_, ?_⟩
  · have h := (c7_zero_qubit_and_negative_shots envBase zeroCircuit 5 none SimState.init).1
      rfl (by decide)
    simpa using h
  · have h := (c7_zero_qubit_and_negative_shots envBase zeroCircuit 0 none SimState.init).1
      rfl (by decide)
    simpa using h
  · exact (c7_zero_qubit_and_negative_shots envBase bellCircuit (-1) none SimState.init).2
      (by decide)

/-- C8 counterexample: the claim states that for every circuit an
unknown backend-override string makes `simulate` fail with an
unknown-backend error.  On a zero-qubit circuit the degenerate-success
branch of `simulate` runs before the override is even parsed (router.py
line 365 precedes line 380), so the call succeeds although the override
"bogus" names no known backend kind. -/
theorem c8_zero_qubit_unknown_override_counterexample :
    BackendType.ofString "bogus" = none ∧
    simulate envBase zeroCircuit 5 (some "bogus") SimState.init =
      (Except.ok { counts := [("", 5)], backend_used := .qiskit, execution_time := 0,
                   routing_decision := none, shots := 5, fallback_reason := none,
                   warnings := none }, SimState.init) := by
  constructor
  · rfl
  · rfl

/-- C8 amended: for every circuit with at least one qubit and
non-negative shots, a backend-override string that names no known
backend kind makes `simulate` fail with the unknown-backend
`ValueError` and the state is returned untouched: no feasibility check,
no reservation and no engine invocation take place. -/
theorem c8_unknown_backend_rejected_before_resource_work
    (env : Env) (c : Circuit) (shots : Int) (s : String) (st : SimState)
    (hq : c.num_qubits ≠ 0) (hs : 0 ≤ shots)
    (hu : BackendType.ofString s = none) :
    simulate env c shots (some s) st =
      (Except.error (AriadneError.valueError ("Unknown backend: " ++ s)), st) := by
  simp [simulate, hq, not_lt.mpr hs, hu]

/-- C8 witness: the unknown override "bogus" on the two-qubit Bell
circuit fails with the unknown-backend error and leaves the fresh state
untouched. -/
theorem c8_unknown_backend_rejected_witness :
    simulate envBase bellCircuit 10 (some "bogus") SimState.init =
      (Except.error (AriadneError.valueError ("Unknown backend: " ++ "bogus")), SimState.init) :=
  c8_unknown_backend_rejected_before_resource_work envBase bellCircuit 10 "bogus"
    SimState.init (by decide) (by decide) rfl

/-- The Clifford classification depends only on the qualifying
operations of a circuit. -/
theorem isCliffordCongr (c₁ c₂ : Circuit) (h : qualifyingOps c₁ = qualifyingOps c₂) :
    is_clifford c₁ = is_clifford c₂ := by
  simp [is_clifford, clifford_ratio, h]

/-- C9: the feature extractor sets is_clifford to true exactly when
every non-barrier, non-measurement operation is in the fixed Clifford
gate-name set; appending measurements and barriers never changes the
classification; and a circuit with zero qualifying operations is
classified Clifford. -/
theorem c9_clifford_classification (c : Circuit) :
    (is_clifford c = true ↔ ∀ op ∈ qualifyingOps c, op.name ∈ cliffordGateNames) ∧
    (∀ extra : List Operation, (∀ op ∈ extra, op.name ∈ excludedNames) →
      is_clifford { c with ops := c.ops ++ extra } = is_clifford c) ∧
    (qualifyingOps c = [] → is_clifford c = true) := by
  have main : is_clifford c = true ↔ ∀ op ∈ qualifyingOps c, op.name ∈ cliffordGateNames := by
    rw [is_clifford, decide_eq_true_eq, clifford_ratio]
    by_cases h0 : (qualifyingOps c).length = 0
    · rw [if_pos h0]
      have hq : qualifyingOps c = [] := List.length_eq_zero.mp h0
      simp [hq]
    · rw [if_neg h0]
      rw [div_eq_iff (Nat.cast_ne_zero.mpr h0), one_mul, Nat.cast_inj,
        List.countP_eq_length]
      constructor
      · intro hall op hop
        have := hall op hop
        simpa [List.elem_iff] using this
      · intro hall op hop
        simpa [List.elem_iff] using hall op hop
  refine ⟨main, ?_, ?_⟩
  · intro extra hextra
    apply isCliffordCongr
    unfold qualifyingOps
    rw [List.filter_append]
    have hnil : extra.filter (fun op => !(excludedNames.contains op.name)) = [] := by
      refine List.filter_eq_nil_iff.mpr ?_
      intro op hop
      simp only [Bool.not_eq_true', Bool.not_eq_false]
      exact (List.elem_iff).mpr (hextra op hop)
    rw [hnil, List.append_nil]
  · intro hq
    refine main.mpr ?_
    intro op hop
    rw [hq] at hop
    exact absurd hop (List.not_mem_nil op)

/-- C9 witness: the Bell circuit (H and CNOT) is Clifford, appending a
measurement and a barrier leaves the classification unchanged, a
circuit with a T gate is not Clifford by the iff, and the empty circuit
is vacuously Clifford. -/
theorem c9_clifford_classification_witness :
    is_clifford bellCircuit = true ∧
    is_clifford { bellCircuit with ops := bellCircuit.ops
        ++ [{ name := "measure", qubits := [0] }, { name := "barrier", qubits := [0, 1] }] }
      = is_clifford bellCircuit ∧
    is_clifford zeroCircuit = true ∧
    is_clifford { bellCircuit with ops := bellCircuit.ops
        ++ [{ name := "t", qubits := [0] }] } ≠ true := by
  refine ⟨?_, ?_, ?_, ?_⟩
  · exact (c9_clifford_classification bellCircuit).1.mpr (by decide)
  · exact (c9_clifford_classification bellCircuit).2.1
      [{ name := "measure", qubits := [0] }, { name := "barrier", qubits := [0, 1] }]
      (by decide)
  · exact (c9_clifford_classification zeroCircuit).2.2 rfl
  · intro hcon
    have := (c9_clifford_classification
      { bellCircuit with ops := bellCircuit.ops
          ++ [{ name := "t", qubits := [0] }] }).1.mp hcon
    have ht := this { name := "t", qubits := [0] } (by decide)
    exact absurd ht (by decide)

/-- C10: when the routing decision recommends a backend kind with no
dedicated execution handler (here `azure_quantum`), execution does not
raise: the circuit runs on the Qiskit backend, the result records
Qiskit as the backend used, and an advisory warning is appended.  The
code diverges from the claim in the warning text: the message is
formatted from `backend.value` after `backend` has been reassigned to
Qiskit (router.py line 303 precedes line 306), so the appended warning
reads "Unknown backend qiskit selected, falling back to Qiskit." and
names the fallback instead of the unknown kind — while the log call two
lines earlier (line 301) names the unknown kind, showing the intent. -/
theorem c10_unknown_backend_runs_on_qiskit_with_misnamed_warning :
    simulate envBase bellCircuit 10 (some "azure_quantum") SimState.init =
      (Except.ok { counts := [("00", 5), ("11", 5)]
                   backend_used := .qiskit
                   execution_time := 0
                   routing_decision := some (forcedDecision .azure_quantum)
                   shots := 10
                   fallback_reason := none
                   warnings := some ["Unknown backend qiskit selected, falling back to Qiskit."] },
       { outstanding := 0, invocations := [.qiskit], routerCalls := 0,
         feasibilityChecks := 2, reserveCalls := 1 }) := by
  rfl

end Ariadne
